import Mathlib

/-!
Shallow embedding of the mock bond-data generator and analytics engine of
`fixed-income-app1.py` (classes `MockDataGenerator` and `AnalyticsEngine`).

Modelling conventions:
* Python floats are modelled as rationals (`ℚ`); Python's `round(x, n)` is
  modelled by `pyRound`, which rounds half to even as CPython's `round` does.
* Every call to `random.uniform`, `random.randint` or `random.choice` is
  modelled by an explicit draw parameter; the hypothesis `BondDraw.Valid`
  (resp. interval bounds on the draw streams) states exactly the range that
  the corresponding library call guarantees for its result.
* Calendar datetimes are abstracted to integer day numbers (`datetime.now()`
  becomes a `base_day`/`endDay` parameter, `timedelta(days = k)` becomes
  `+ k`, and the `strftime`/`.year` display formatting of a date is rendered
  from the day number).
* `pandas.date_range(end, periods, freq = ...)`, an external library call, is
  modelled by `date_range`: it yields `periods` consecutive day numbers ending
  at `endDay`, and raises `ValueError` when `periods` is negative (pandas
  rejects a negative sample count); fallible calls return `Except`.
-/

/-- Round a rational to the nearest integer, ties to the even integer.
This is the rounding used by Python 3's builtin `round`. -/
def roundHalfEven (x : ℚ) : ℤ :=
  if x - ⌊x⌋ < 1/2 then ⌊x⌋
  else if 1/2 < x - ⌊x⌋ then ⌊x⌋ + 1
  else if ⌊x⌋ % 2 = 0 then ⌊x⌋ else ⌊x⌋ + 1

/-- Python `round(x, n)`: round `x` to `n` decimal places, ties to even. -/
def pyRound (x : ℚ) (n : ℕ) : ℚ :=
  (roundHalfEven (x * 10 ^ n) : ℚ) / 10 ^ n

/-- `listStartsWith pre l` is true when `pre` is an initial segment of `l`. -/
def listStartsWith : List Char → List Char → Bool
  | [], _ => true
  | _ :: _, [] => false
  | a :: s, b :: t => a == b && listStartsWith s t

/-- `listContainsSub sub l` is true when `sub` occurs contiguously in `l`. -/
def listContainsSub : List Char → List Char → Bool
  | sub, [] => sub.isEmpty
  | sub, c :: t => listStartsWith sub (c :: t) || listContainsSub sub t

/-- Python's substring test `sub in s`. -/
def strContains (sub s : String) : Bool :=
  listContainsSub sub.data s.data

/-- Python `str.zfill`: left-pad a string with zeros to the given width. -/
def zfill (width : ℕ) (s : String) : String :=
  if s.length < width then String.mk (List.replicate (width - s.length) '0') ++ s
  else s

/-- The `Bond` dataclass of the source.  `maturity` is held in the source as a
`"%Y-%m-%d"` string of a datetime; here dates are abstracted to integer day
numbers. -/
structure Bond where
  isin : String
  ticker : String
  coupon : ℚ
  maturity : ℤ
  yield_value : ℚ
  spread : ℤ
  duration : ℚ
  rating : String
  sector : String
  currency : String
  price : ℚ
  issue_size : ℚ
  deriving DecidableEq

/-- The rating-dependent premium added to the base yield in
`MockDataGenerator.generate_bonds`:
`if 'BBB' in rating: base_yield += 1.5  elif 'A' in rating: base_yield += 0.5`. -/
def ratingPremium (rating : String) : ℚ :=
  if strContains ("BBB") rating then 3/2
  else if strContains ("A") rating then 1/2
  else 0

namespace MockDataGenerator

def SECTORS : List String :=
  ["Government", "Corporate IG", "Corporate HY", "Municipal", "Agency", "Sovereign"]

def RATINGS : List String :=
  ["AAA", "AA+", "AA", "AA-", "A+", "A", "A-", "BBB+", "BBB", "BBB-"]

def CURRENCIES : List String :=
  ["USD", "EUR", "GBP", "JPY", "CHF"]

/-- The random values drawn inside one iteration of the `generate_bonds` loop,
in source order: `random.randint(1, 30)` for the maturity, `random.choice` on
`SECTORS` and on `RATINGS`, `random.uniform(-0.5, 0.5)` for the yield noise,
`random.uniform(1, 6)` for the coupon shown in the ticker, `random.uniform(1, 6)`
for the coupon field, `random.randint(10, 300)` for the spread,
`random.uniform(-1, 1)` for the duration noise, `random.choice` on `CURRENCIES`,
`random.uniform(-2, 2)` for the price noise, and `random.choice` on the fixed
issue sizes. -/
structure BondDraw where
  maturity_years : ℕ
  sector : String
  rating : String
  yield_noise : ℚ
  ticker_coupon : ℚ
  coupon : ℚ
  spread : ℤ
  duration_noise : ℚ
  currency : String
  price_noise : ℚ
  issue_size : ℚ

/-- The ranges that the random library guarantees for the draws of one loop
iteration of `generate_bonds`. -/
def BondDraw.Valid (d : BondDraw) : Prop :=
  1 ≤ d.maturity_years ∧ d.maturity_years ≤ 30 ∧
  d.sector ∈ SECTORS ∧
  d.rating ∈ RATINGS ∧
  -(1/2) ≤ d.yield_noise ∧ d.yield_noise ≤ 1/2 ∧
  1 ≤ d.ticker_coupon ∧ d.ticker_coupon ≤ 6 ∧
  1 ≤ d.coupon ∧ d.coupon ≤ 6 ∧
  10 ≤ d.spread ∧ d.spread ≤ 300 ∧
  -1 ≤ d.duration_noise ∧ d.duration_noise ≤ 1 ∧
  d.currency ∈ CURRENCIES ∧
  -2 ≤ d.price_noise ∧ d.price_noise ≤ 2 ∧
  d.issue_size ∈ ([500000000, 1000000000, 2000000000, 5000000000] : List ℚ)

instance (d : BondDraw) : Decidable d.Valid := by
  unfold BondDraw.Valid
  exact inferInstance

/-- One iteration of the `generate_bonds` loop: build the `Bond` with index `i`
from the draws `d`, relative to `base_date = datetime.now()` (day `base_day`). -/
def mkBond (base_day : ℤ) (i : ℕ) (d : BondDraw) : Bond :=
  let maturity_day : ℤ := base_day + 365 * (d.maturity_years : ℤ)
  let yield_value : ℚ :=
    pyRound (2 + (d.maturity_years : ℚ) * (1/10) + ratingPremium d.rating + d.yield_noise) 2
  { isin := "XS" ++ zfill 10 (toString i)
    ticker := (d.sector.take 3).toUpper ++ " " ++ toString (pyRound d.ticker_coupon 2)
      ++ "% " ++ toString maturity_day
    coupon := pyRound d.coupon 2
    maturity := maturity_day
    yield_value := yield_value
    spread := d.spread
    duration := pyRound ((d.maturity_years : ℚ) * (17/20) + d.duration_noise) 1
    rating := d.rating
    sector := d.sector
    currency := d.currency
    price := 100 - (yield_value - 3) * 5 + d.price_noise
    issue_size := d.issue_size }

/-- `MockDataGenerator.generate_bonds(count)`.  The `for i in range(count)` loop
runs `max count 0` times; `draws i` supplies the random values of iteration `i`. -/
def generate_bonds (count : ℤ) (base_day : ℤ) (draws : ℕ → BondDraw) : List Bond :=
  (List.range count.toNat).map (fun i => mkBond base_day i (draws i))

/-- One row of the historical-data frame. -/
structure HistPoint where
  date : ℤ
  yield_value : ℚ
  spread : ℤ
  price : ℚ
  deriving DecidableEq

/-- `pandas.date_range(end = endDay, periods = periods, freq = 'D')`:
`periods` consecutive calendar days ending at `endDay`; pandas raises
`ValueError` when `periods` is negative. -/
def date_range (endDay : ℤ) (periods : ℤ) : Except String (List ℤ) :=
  if periods < 0 then Except.error ("ValueError: periods must be non-negative")
  else Except.ok ((List.range periods.toNat).map (fun i : ℕ => endDay - periods + 1 + (i : ℤ)))

/-- The `for date in dates` loop of `generate_historical_data`: random-walk the
yield (`random.uniform(-0.05, 0.05)` per step, drawn from `yd`) and the spread
(`random.randint(-2, 2)` per step, drawn from `sd`) and emit one row per date.
`k` counts the iterations already performed. -/
def histLoop (yd : ℕ → ℚ) (sd : ℕ → ℤ) : ℚ → ℤ → List ℤ → ℕ → List HistPoint
  | _, _, [], _ => []
  | y, s, date :: rest, k =>
      { date := date
        yield_value := pyRound (y + yd k) 3
        spread := s + sd k
        price := pyRound (100 - ((y + yd k) - 3) * 5) 2 } ::
      histLoop yd sd (y + yd k) (s + sd k) rest (k + 1)

/-- `MockDataGenerator.generate_historical_data(isin, days)`: a random walk
started at `base_yield = 3.5`, `base_spread = 50` over the dates produced by
`date_range` (ending at `endDay = datetime.now()`). -/
def generate_historical_data (isin : String) (days : ℤ) (endDay : ℤ)
    (yd : ℕ → ℚ) (sd : ℕ → ℤ) : Except String (List HistPoint) :=
  match date_range endDay days with
  | Except.error e => Except.error e
  | Except.ok dates => Except.ok (histLoop yd sd (7/2) 50 dates 0)

end MockDataGenerator

namespace AnalyticsEngine

/-- `AnalyticsEngine.calculate_total_return(bond, holding_period_days)`;
`price_draw` is the `random.uniform(-2, 2)` sample of the mock price change. -/
def calculate_total_return (bond : Bond) (holding_period_days : ℤ) (price_draw : ℚ) : ℚ :=
  pyRound ((bond.coupon / 100 * ((holding_period_days : ℚ) / 365) + price_draw / 100) * 100) 2

/-- `AnalyticsEngine.calculate_spread_change`. -/
def calculate_spread_change (current_spread historical_spread : ℤ) : ℤ :=
  current_spread - historical_spread

/-- The fixed tenor grid of `generate_yield_curve`. -/
def tenors : List ℚ := [1/4, 1/2, 1, 2, 3, 5, 7, 10, 15, 20, 30]

/-- The base-rate table of `generate_yield_curve`: the high-rate shape for the
exact string `"USD"`, the low-rate shape for every other currency string. -/
def base_rates (currency : String) : List ℚ :=
  if currency = "USD" then
    [7/2, 37/10, 39/10, 4, 41/10, 21/5, 43/10, 22/5, 9/2, 23/5, 47/10]
  else
    [5/2, 27/10, 29/10, 3, 31/10, 16/5, 33/10, 17/5, 7/2, 18/5, 37/10]

/-- The `{tenors, yields}` structure returned by `generate_yield_curve`. -/
structure YieldCurve where
  tenors : List ℚ
  yields : List ℚ
  deriving DecidableEq

/-- `AnalyticsEngine.generate_yield_curve(currency)`; `noise` supplies the
per-tenor `random.uniform(-0.1, 0.1)` samples. -/
def generate_yield_curve (currency : String) (noise : List ℚ) : YieldCurve :=
  { tenors := tenors
    yields := List.zipWith (fun rate n => pyRound (rate + n) 3) (base_rates currency) noise }

end AnalyticsEngine

/-- A generic valid draw, used to instantiate universally quantified theorems. -/
def sampleDraw : MockDataGenerator.BondDraw :=
  { maturity_years := 10
    sector := "Government"
    rating := "AA"
    yield_noise := 1/4
    ticker_coupon := 3
    coupon := 3
    spread := 100
    duration_noise := 1/2
    currency := "USD"
    price_noise := 0
    issue_size := 1000000000 }

/-- A valid draw hitting the extreme corner of the duration computation:
one-year maturity with duration noise exactly `-1`. -/
def durMinDraw : MockDataGenerator.BondDraw :=
  { maturity_years := 1
    sector := "Municipal"
    rating := "AAA"
    yield_noise := 0
    ticker_coupon := 2
    coupon := 2
    spread := 10
    duration_noise := -1
    currency := "EUR"
    price_noise := 1
    issue_size := 500000000 }

/-- A valid draw producing a strictly negative duration:
one-year maturity with duration noise `-19/20`. -/
def durNegDraw : MockDataGenerator.BondDraw :=
  { maturity_years := 1
    sector := "Agency"
    rating := "BBB"
    yield_noise := -1/4
    ticker_coupon := 5
    coupon := 5
    spread := 250
    duration_noise := -19/20
    currency := "GBP"
    price_noise := -1
    issue_size := 2000000000 }

/-- Constant draw streams for concrete instantiations. -/
def wdraws : ℕ → MockDataGenerator.BondDraw := fun _ => sampleDraw

def durMinDraws : ℕ → MockDataGenerator.BondDraw := fun _ => durMinDraw

def durNegDraws : ℕ → MockDataGenerator.BondDraw := fun _ => durNegDraw

/-- A sample bond for instantiating the analytics theorems. -/
def sampleBond : Bond :=
  { isin := "XS0000000000"
    ticker := "GOV 2.5% 2030"
    coupon := 4
    maturity := 22000
    yield_value := 4
    spread := 100
    duration := 5
    rating := "AAA"
    sector := "Government"
    currency := "USD"
    price := 100
    issue_size := 1000000000 }

/-- A second sample bond agreeing with `sampleBond` only on `coupon`. -/
def sampleBond2 : Bond :=
  { isin := "XS0000000001"
    ticker := "COR 3.2% 2028"
    coupon := 4
    maturity := 21000
    yield_value := 6
    spread := 220
    duration := 3
    rating := "BBB-"
    sector := "Corporate HY"
    currency := "JPY"
    price := 85
    issue_size := 500000000 }

/-- The noise sample used to instantiate the yield-curve theorems. -/
def noiseSample : List ℚ :=
  [1/10, -(1/10), 0, 1/20, -(1/20), 0, 1/100, -(1/100), 0, 1/10, 0]

/-! ### Helper lemmas (shared by several claims) -/

theorem roundHalfEven_le (x : ℚ) : (roundHalfEven x : ℚ) ≤ x + 1/2 := by
  have h1 : (⌊x⌋ : ℚ) ≤ x := Int.floor_le x
  have h2 : x - 1 < (⌊x⌋ : ℚ) := Int.sub_one_lt_floor x
  unfold roundHalfEven
  split_ifs with ha hb hc
  · push_cast
    linarith
  · push_cast
    linarith
  · push_cast
    linarith
  · push_cast
    linarith [not_lt.mp ha]

theorem le_roundHalfEven (x : ℚ) : x - 1/2 ≤ (roundHalfEven x : ℚ) := by
  have h1 : (⌊x⌋ : ℚ) ≤ x := Int.floor_le x
  have h2 : x - 1 < (⌊x⌋ : ℚ) := Int.sub_one_lt_floor x
  unfold roundHalfEven
  split_ifs with ha hb hc
  · push_cast
    linarith
  · push_cast
    linarith
  · push_cast
    linarith [not_lt.mp hb]
  · push_cast
    linarith

theorem pyRound_le (x : ℚ) (n : ℕ) : pyRound x n ≤ x + 1 / (2 * 10 ^ n) := by
  have hp : (0 : ℚ) < 10 ^ n := by positivity
  have hne : ((10 : ℚ) ^ n) ≠ 0 := ne_of_gt hp
  have h := roundHalfEven_le (x * 10 ^ n)
  unfold pyRound
  rw [div_le_iff hp]
  calc (roundHalfEven (x * 10 ^ n) : ℚ) ≤ x * 10 ^ n + 1/2 := h
    _ = (x + 1 / (2 * 10 ^ n)) * 10 ^ n := by field_simp; ring

theorem le_pyRound (x : ℚ) (n : ℕ) : x - 1 / (2 * 10 ^ n) ≤ pyRound x n := by
  have hp : (0 : ℚ) < 10 ^ n := by positivity
  have hne : ((10 : ℚ) ^ n) ≠ 0 := ne_of_gt hp
  have h := le_roundHalfEven (x * 10 ^ n)
  unfold pyRound
  rw [le_div_iff hp]
  calc (x - 1 / (2 * 10 ^ n)) * 10 ^ n = x * 10 ^ n - 1/2 := by field_simp; ring
    _ ≤ (roundHalfEven (x * 10 ^ n) : ℚ) := h

theorem ratingPremium_nonneg (r : String) : 0 ≤ ratingPremium r := by
  unfold ratingPremium
  split_ifs <;> norm_num

theorem duration_lb (m : ℕ) (dn : ℚ) (h1 : 1 ≤ m) (h2 : -1 ≤ dn) :
    -(1/5) ≤ pyRound ((m : ℚ) * (17/20) + dn) 1 := by
  have hm : (1 : ℚ) ≤ (m : ℚ) := by exact_mod_cast h1
  have h := le_pyRound ((m : ℚ) * (17/20) + dn) 1
  have e : (1 : ℚ) / (2 * 10 ^ (1 : ℕ)) = 1/20 := by norm_num
  rw [e] at h
  nlinarith

theorem duration_ub (m : ℕ) (dn : ℚ) (h1 : m ≤ 30) (h2 : dn ≤ 1) :
    pyRound ((m : ℚ) * (17/20) + dn) 1 ≤ 53/2 := by
  have hm : (m : ℚ) ≤ 30 := by exact_mod_cast h1
  have harg : ((m : ℚ) * (17/20) + dn) * 10 ^ (1 : ℕ) ≤ 265 := by
    have : (10 : ℚ) ^ (1 : ℕ) = 10 := by norm_num
    rw [this]
    nlinarith
  have hq : (roundHalfEven (((m : ℚ) * (17/20) + dn) * 10 ^ (1 : ℕ)) : ℚ) < 266 := by
    have := roundHalfEven_le (((m : ℚ) * (17/20) + dn) * 10 ^ (1 : ℕ))
    linarith
  have hz : roundHalfEven (((m : ℚ) * (17/20) + dn) * 10 ^ (1 : ℕ)) < 266 := by
    exact_mod_cast hq
  have hz2 : (roundHalfEven (((m : ℚ) * (17/20) + dn) * 10 ^ (1 : ℕ)) : ℚ) ≤ 265 := by
    exact_mod_cast Int.lt_add_one_iff.mp hz
  unfold pyRound
  rw [div_le_iff (by positivity : (0 : ℚ) < (10 : ℚ) ^ (1 : ℕ))]
  calc (roundHalfEven (((m : ℚ) * (17/20) + dn) * 10 ^ (1 : ℕ)) : ℚ) ≤ 265 := hz2
    _ = 53/2 * 10 ^ (1 : ℕ) := by norm_num

theorem yield_nonneg (m : ℕ) (r : String) (yn : ℚ) (h1 : 1 ≤ m) (h2 : -(1/2) ≤ yn) :
    0 ≤ pyRound (2 + (m : ℚ) * (1/10) + ratingPremium r + yn) 2 := by
  have hm : (1 : ℚ) ≤ (m : ℚ) := by exact_mod_cast h1
  have hp := ratingPremium_nonneg r
  have h := le_pyRound (2 + (m : ℚ) * (1/10) + ratingPremium r + yn) 2
  have e : (1 : ℚ) / (2 * 10 ^ (2 : ℕ)) = 1/200 := by norm_num
  rw [e] at h
  nlinarith

theorem mkBond_yield_value (base_day : ℤ) (i : ℕ) (d : MockDataGenerator.BondDraw) :
    (MockDataGenerator.mkBond base_day i d).yield_value
      = pyRound (2 + (d.maturity_years : ℚ) * (1/10) + ratingPremium d.rating + d.yield_noise) 2 :=
  rfl

theorem mkBond_duration (base_day : ℤ) (i : ℕ) (d : MockDataGenerator.BondDraw) :
    (MockDataGenerator.mkBond base_day i d).duration
      = pyRound ((d.maturity_years : ℚ) * (17/20) + d.duration_noise) 1 :=
  rfl

theorem mkBond_maturity (base_day : ℤ) (i : ℕ) (d : MockDataGenerator.BondDraw) :
    (MockDataGenerator.mkBond base_day i d).maturity
      = base_day + 365 * (d.maturity_years : ℤ) :=
  rfl

theorem mkBond_spread (base_day : ℤ) (i : ℕ) (d : MockDataGenerator.BondDraw) :
    (MockDataGenerator.mkBond base_day i d).spread = d.spread :=
  rfl

theorem mkBond_rating (base_day : ℤ) (i : ℕ) (d : MockDataGenerator.BondDraw) :
    (MockDataGenerator.mkBond base_day i d).rating = d.rating :=
  rfl

theorem mkBond_sector (base_day : ℤ) (i : ℕ) (d : MockDataGenerator.BondDraw) :
    (MockDataGenerator.mkBond base_day i d).sector = d.sector :=
  rfl

theorem mkBond_currency (base_day : ℤ) (i : ℕ) (d : MockDataGenerator.BondDraw) :
    (MockDataGenerator.mkBond base_day i d).currency = d.currency :=
  rfl

theorem mem_generate_bonds {count base_day : ℤ} {draws : ℕ → MockDataGenerator.BondDraw}
    {b : Bond} (hb : b ∈ MockDataGenerator.generate_bonds count base_day draws) :
    ∃ i, b = MockDataGenerator.mkBond base_day i (draws i) := by
  unfold MockDataGenerator.generate_bonds at hb
  rcases List.mem_map.mp hb with ⟨i, _, rfl⟩
  exact ⟨i, rfl⟩

theorem histLoop_map_date (yd : ℕ → ℚ) (sd : ℕ → ℤ) :
    ∀ (dates : List ℤ) (y : ℚ) (s : ℤ) (k : ℕ),
      (MockDataGenerator.histLoop yd sd y s dates k).map MockDataGenerator.HistPoint.date
        = dates := by
  intro dates
  induction dates with
  | nil => intro y s k; rfl
  | cons dte rest ih =>
    intro y s k
    simp only [MockDataGenerator.histLoop, List.map_cons, List.cons.injEq, true_and]
    exact ih _ _ _

theorem price_close (y : ℚ) :
    |pyRound (100 - (y - 3) * 5) 2 - (100 - (pyRound y 3 - 3) * 5)| ≤ 3/400 := by
  have ha := pyRound_le (100 - (y - 3) * 5) 2
  have hb := le_pyRound (100 - (y - 3) * 5) 2
  have hc := pyRound_le y 3
  have hd := le_pyRound y 3
  have e2 : (1 : ℚ) / (2 * 10 ^ (2 : ℕ)) = 1/200 := by norm_num
  have e3 : (1 : ℚ) / (2 * 10 ^ (3 : ℕ)) = 1/2000 := by norm_num
  rw [e2] at ha hb
  rw [e3] at hc hd
  rw [abs_le]
  constructor <;> nlinarith

theorem histLoop_price (yd : ℕ → ℚ) (sd : ℕ → ℤ) :
    ∀ (dates : List ℤ) (y : ℚ) (s : ℤ) (k : ℕ),
      ∀ p ∈ MockDataGenerator.histLoop yd sd y s dates k,
        (∃ w : ℚ, p.yield_value = pyRound w 3 ∧ p.price = pyRound (100 - (w - 3) * 5) 2) ∧
        |p.price - (100 - (p.yield_value - 3) * 5)| ≤ 3/400 := by
  intro dates
  induction dates with
  | nil =>
    intro y s k p hp
    simp [MockDataGenerator.histLoop] at hp
  | cons dte rest ih =>
    intro y s k p hp
    rw [MockDataGenerator.histLoop, List.mem_cons] at hp
    rcases hp with rfl | hp
    · exact ⟨⟨y + yd k, rfl, rfl⟩, price_close (y + yd k)⟩
    · exact ih _ _ _ p hp

theorem getD_zipWith_pyRound (bs ns : List ℚ) (i : ℕ)
    (h1 : i < bs.length) (h2 : i < ns.length) :
    (List.zipWith (fun rate n => pyRound (rate + n) 3) bs ns).getD i 0
      = pyRound (bs.getD i 0 + ns.getD i 0) 3 := by
  induction bs generalizing ns i with
  | nil => simp at h1
  | cons b bs ih =>
    cases ns with
    | nil => simp at h2
    | cons n ns =>
      cases i with
      | zero => rfl
      | succ j =>
        simp only [List.zipWith_cons_cons, List.getD_cons_succ]
        have hj1 : j < bs.length := by simp [List.length_cons] at h1; omega
        have hj2 : j < ns.length := by simp [List.length_cons] at h2; omega
        exact ih ns j hj1 hj2

theorem getD_mem (l : List ℚ) (i : ℕ) (h : i < l.length) : l.getD i 0 ∈ l := by
  induction l generalizing i with
  | nil => simp at h
  | cons a t ih =>
    cases i with
    | zero => simp [List.getD_cons_zero]
    | succ j =>
      simp only [List.getD_cons_succ]
      have hj : j < t.length := by simp [List.length_cons] at h; omega
      exact List.mem_cons_of_mem a (ih j hj)

theorem base_rates_length (currency : String) :
    (AnalyticsEngine.base_rates currency).length = 11 := by
  unfold AnalyticsEngine.base_rates
  split_ifs <;> rfl

theorem sampleDraw_valid : sampleDraw.Valid := by
  unfold MockDataGenerator.BondDraw.Valid sampleDraw
  norm_num [MockDataGenerator.SECTORS, MockDataGenerator.RATINGS, MockDataGenerator.CURRENCIES]

theorem durMinDraw_valid : durMinDraw.Valid := by
  unfold MockDataGenerator.BondDraw.Valid durMinDraw
  norm_num [MockDataGenerator.SECTORS, MockDataGenerator.RATINGS, MockDataGenerator.CURRENCIES]

theorem durNegDraw_valid : durNegDraw.Valid := by
  unfold MockDataGenerator.BondDraw.Valid durNegDraw
  norm_num [MockDataGenerator.SECTORS, MockDataGenerator.RATINGS, MockDataGenerator.CURRENCIES]

/-! ### Claim theorems -/

/-- Claim C1 (amended): for every non-negative `count` and valid random draws,
`generate_bonds` returns exactly `count` records, and every record has
`yield_value ≥ 0`, `spread ∈ [10, 300]`, `duration ∈ [-1/5, 53/2]`
(the 1-decimal rounding can push the lower edge to `0.85*1 - 1 - 0.05 = -0.2`,
below the claimed `0.85*1 - 1 = -0.15`; the upper edge `0.85*30 + 1 = 26.5`
is as claimed), and `rating`, `sector`, `currency` drawn from the fixed
enumerated sets. -/
theorem generate_bonds_spec (count base_day : ℤ) (draws : ℕ → MockDataGenerator.BondDraw)
    (hc : 0 ≤ count) (hv : ∀ i, (draws i).Valid) :
    ((MockDataGenerator.generate_bonds count base_day draws).length : ℤ) = count ∧
    ∀ b ∈ MockDataGenerator.generate_bonds count base_day draws,
      0 ≤ b.yield_value ∧
      10 ≤ b.spread ∧ b.spread ≤ 300 ∧
      -(1/5) ≤ b.duration ∧ b.duration ≤ 53/2 ∧
      b.rating ∈ MockDataGenerator.RATINGS ∧
      b.sector ∈ MockDataGenerator.SECTORS ∧
      b.currency ∈ MockDataGenerator.CURRENCIES := by
  constructor
  · unfold MockDataGenerator.generate_bonds
    rw [List.length_map, List.length_range]
    exact_mod_cast Int.toNat_of_nonneg hc
  · intro b hb
    rcases mem_generate_bonds hb with ⟨i, rfl⟩
    obtain ⟨h1, h2, h3, h4, h5, h6, h7, h8, h9, h10, h11, h12, h13, h14, h15, h16, h17, h18⟩ :=
      hv i
    refine ⟨?_, ?_, ?_, ?_, ?_, ?_, ?_, ?_⟩
    · rw [mkBond_yield_value]
      exact yield_nonneg _ _ _ h1 h5
    · rw [mkBond_spread]
      exact h11
    · rw [mkBond_spread]
      exact h12
    · rw [mkBond_duration]
      exact duration_lb _ _ h1 h13
    · rw [mkBond_duration]
      exact duration_ub _ _ h2 h14
    · rw [mkBond_rating]
      exact h4
    · rw [mkBond_sector]
      exact h3
    · rw [mkBond_currency]
      exact h15

/-- Witness for C1: the amended statement evaluated at `count = 2` with a
concrete valid draw stream. -/
theorem generate_bonds_spec_checked :
    ((0 : ℤ) ≤ 2 ∧ ∀ i, (wdraws i).Valid) ∧
    (((MockDataGenerator.generate_bonds 2 0 wdraws).length : ℤ) = 2 ∧
      ∀ b ∈ MockDataGenerator.generate_bonds 2 0 wdraws,
        0 ≤ b.yield_value ∧
        10 ≤ b.spread ∧ b.spread ≤ 300 ∧
        -(1/5) ≤ b.duration ∧ b.duration ≤ 53/2 ∧
        b.rating ∈ MockDataGenerator.RATINGS ∧
        b.sector ∈ MockDataGenerator.SECTORS ∧
        b.currency ∈ MockDataGenerator.CURRENCIES) :=
  ⟨⟨by norm_num, fun _ => sampleDraw_valid⟩,
    generate_bonds_spec 2 0 wdraws (by norm_num) (fun _ => sampleDraw_valid)⟩

/-- Counterexample for C1 as stated: with the (attainable) draws `m = 1`,
duration noise `-1`, the generated duration is `-1/5 = -0.2`, strictly below
the claimed lower bound `0.85 * 1 - 1 = -0.15`. -/
theorem generate_bonds_duration_edge :
    (∀ i, (durMinDraws i).Valid) ∧
    (MockDataGenerator.generate_bonds 1 0 durMinDraws).map Bond.duration = [-(1/5)] ∧
    ¬ ((17/20 : ℚ) * 1 - 1 ≤ -(1/5)) := by
  refine ⟨fun _ => durMinDraw_valid, ?_, by norm_num⟩
  norm_num [MockDataGenerator.generate_bonds, MockDataGenerator.mkBond, durMinDraws,
    durMinDraw, pyRound, roundHalfEven, List.range_succ]

/-- Claim C6 (amended): every generated bond has `duration ≥ -1/5`; the
claimed invariant `duration ≥ 0` fails only for one-year maturities with
strongly negative duration noise. -/
theorem generate_bonds_duration_lower_bound (count base_day : ℤ)
    (draws : ℕ → MockDataGenerator.BondDraw) (hv : ∀ i, (draws i).Valid) :
    ∀ b ∈ MockDataGenerator.generate_bonds count base_day draws,
      -(1/5) ≤ b.duration := by
  intro b hb
  rcases mem_generate_bonds hb with ⟨i, rfl⟩
  obtain ⟨h1, _, _, _, _, _, _, _, _, _, _, _, h13, _, _, _, _, _⟩ := hv i
  rw [mkBond_duration]
  exact duration_lb _ _ h1 h13

/-- Witness for C6: the amended statement evaluated on a concrete draw stream. -/
theorem generate_bonds_duration_lower_bound_checked :
    (∀ i, (wdraws i).Valid) ∧
    (∀ b ∈ MockDataGenerator.generate_bonds 1 0 wdraws, -(1/5) ≤ b.duration) :=
  ⟨fun _ => sampleDraw_valid,
    generate_bonds_duration_lower_bound 1 0 wdraws (fun _ => sampleDraw_valid)⟩

/-- Counterexample for C6 as stated: with the valid draws `m = 1`, duration
noise `-19/20`, the generated duration is `-1/10 < 0`. -/
theorem generate_bonds_negative_duration :
    (∀ i, (durNegDraws i).Valid) ∧
    (MockDataGenerator.generate_bonds 1 0 durNegDraws).map Bond.duration = [-(1/10)] ∧
    ¬ ((0 : ℚ) ≤ -(1/10)) := by
  refine ⟨fun _ => durNegDraw_valid, ?_, by norm_num⟩
  norm_num [MockDataGenerator.generate_bonds, MockDataGenerator.mkBond, durNegDraws,
    durNegDraw, pyRound, roundHalfEven, List.range_succ]

/-- Claim C3: every record produced by `generate_bonds` has
`yield_value = round₂(2.0 + 0.1 * maturityYears + premium + r)` for some noise
`r ∈ [-1/2, 1/2]`, where `maturityYears` is the record's own drawn maturity
`m ∈ [1, 30]` — tied to the record by `maturity = base_day + 365 * m`, the
record's maturity date — and the premium is `3/2` when the rating contains
`"BBB"` and `1/2` when it contains `"A"` but not `"BBB"`. -/
theorem generate_bonds_yield_formula (count base_day : ℤ)
    (draws : ℕ → MockDataGenerator.BondDraw) (hv : ∀ i, (draws i).Valid) :
    ∀ b ∈ MockDataGenerator.generate_bonds count base_day draws,
      ∃ m : ℕ, 1 ≤ m ∧ m ≤ 30 ∧ b.maturity = base_day + 365 * (m : ℤ) ∧
        ∃ r : ℚ, -(1/2) ≤ r ∧ r ≤ 1/2 ∧
          b.yield_value =
            pyRound (2 + (m : ℚ) * (1/10) +
                (if strContains ("BBB") b.rating then (3/2 : ℚ)
                 else if strContains ("A") b.rating then 1/2 else 0) + r) 2 := by
  intro b hb
  rcases mem_generate_bonds hb with ⟨i, rfl⟩
  obtain ⟨h1, h2, _, _, h5, h6, _, _, _, _, _, _, _, _, _, _, _, _⟩ := hv i
  refine ⟨(draws i).maturity_years, h1, h2, mkBond_maturity base_day i (draws i),
    (draws i).yield_noise, h5, h6, ?_⟩
  rw [mkBond_yield_value, mkBond_rating]
  rfl

/-- Witness for C3: the statement evaluated on a concrete valid draw stream. -/
theorem generate_bonds_yield_formula_checked :
    (∀ i, (wdraws i).Valid) ∧
    (∀ b ∈ MockDataGenerator.generate_bonds 1 0 wdraws,
      ∃ m : ℕ, 1 ≤ m ∧ m ≤ 30 ∧ b.maturity = 0 + 365 * (m : ℤ) ∧
        ∃ r : ℚ, -(1/2) ≤ r ∧ r ≤ 1/2 ∧
          b.yield_value =
            pyRound (2 + (m : ℚ) * (1/10) +
                (if strContains ("BBB") b.rating then (3/2 : ℚ)
                 else if strContains ("A") b.rating then 1/2 else 0) + r) 2) :=
  ⟨fun _ => sampleDraw_valid,
    generate_bonds_yield_formula 1 0 wdraws (fun _ => sampleDraw_valid)⟩

/-- Claim C2 (amended): for every `isin` and `days ≥ 1`,
`generate_historical_data` returns exactly `days` points whose dates are the
consecutive days `endDay - days + 1, …, endDay` (strictly increasing,
contiguous, ending at generation time).  Each point's `price` is the 2-decimal
rounding of `100 - (w - 3) * 5` where `w` is the unrounded walk yield whose
3-decimal rounding is the emitted `yield_value`; consequently
`price = 100 - (yield_value - 3) * 5` holds within `3/400`, but not exactly
(the two independent roundings differ). -/
theorem generate_historical_data_spec (isin : String) (days endDay : ℤ)
    (yd : ℕ → ℚ) (sd : ℕ → ℤ) (hd : 1 ≤ days) :
    ∃ pts : List MockDataGenerator.HistPoint,
      MockDataGenerator.generate_historical_data isin days endDay yd sd = Except.ok pts ∧
      (pts.length : ℤ) = days ∧
      pts.map MockDataGenerator.HistPoint.date
        = (List.range days.toNat).map (fun i : ℕ => endDay - days + 1 + (i : ℤ)) ∧
      ∀ p ∈ pts,
        (∃ w : ℚ, p.yield_value = pyRound w 3 ∧ p.price = pyRound (100 - (w - 3) * 5) 2) ∧
        |p.price - (100 - (p.yield_value - 3) * 5)| ≤ 3/400 := by
  have hnn : ¬ days < 0 := by omega
  refine ⟨MockDataGenerator.histLoop yd sd (7/2) 50
      ((List.range days.toNat).map (fun i : ℕ => endDay - days + 1 + (i : ℤ))) 0, ?_, ?_, ?_, ?_⟩
  · unfold MockDataGenerator.generate_historical_data MockDataGenerator.date_range
    rw [if_neg hnn]
  · have hmap := histLoop_map_date yd sd
      ((List.range days.toNat).map (fun i : ℕ => endDay - days + 1 + (i : ℤ))) (7/2) 50 0
    have hlen := congrArg List.length hmap
    simp only [List.length_map, List.length_range] at hlen
    rw [hlen]
    exact_mod_cast Int.toNat_of_nonneg (by omega)
  · exact histLoop_map_date yd sd _ (7/2) 50 0
  · intro p hp
    exact histLoop_price yd sd _ (7/2) 50 0 p hp

/-- Witness for C2: the amended statement evaluated at `days = 2`,
`endDay = 5`, with concrete draw streams. -/
theorem generate_historical_data_spec_checked :
    (1 : ℤ) ≤ 2 ∧
    (∃ pts : List MockDataGenerator.HistPoint,
      MockDataGenerator.generate_historical_data ("XS0000000000") 2 5
          (fun _ => 1/100) (fun _ => 1) = Except.ok pts ∧
      (pts.length : ℤ) = 2 ∧
      pts.map MockDataGenerator.HistPoint.date
        = (List.range (2 : ℤ).toNat).map (fun i : ℕ => 5 - 2 + 1 + (i : ℤ)) ∧
      ∀ p ∈ pts,
        (∃ w : ℚ, p.yield_value = pyRound w 3 ∧ p.price = pyRound (100 - (w - 3) * 5) 2) ∧
        |p.price - (100 - (p.yield_value - 3) * 5)| ≤ 3/400) :=
  ⟨by norm_num,
    generate_historical_data_spec ("XS0000000000") 2 5 (fun _ => 1/100) (fun _ => 1)
      (by norm_num)⟩

/-- Counterexample for C2 as stated: with `days = 1` and first yield draw
`-0.049`, the walk yield is `3.451`, the emitted `yield_value` is `3.451`, but
the emitted price is `round(97.745, 2) = 97.74 = 4887/50`, which differs from
`100 - (yield_value - 3) * 5 = 97.745`. -/
theorem historical_price_not_exact :
    MockDataGenerator.generate_historical_data ("XS0000000001") 1 0
        (fun _ => -(49/1000)) (fun _ => 0)
      = Except.ok [{ date := 0, yield_value := 3451/1000, spread := 50, price := 4887/50 }] ∧
    ¬ ((4887/50 : ℚ) = 100 - (3451/1000 - 3) * 5) := by
  constructor
  · norm_num [MockDataGenerator.generate_historical_data, MockDataGenerator.date_range,
      MockDataGenerator.histLoop, pyRound, roundHalfEven, List.range_succ]
  · norm_num

/-- Claim C9: for every `isin`, `generate_historical_data(isin, 0)` returns an
empty series and does not raise: `date_range` accepts `periods = 0` and the
loop body never runs. -/
theorem generate_historical_data_zero_days (isin : String) (endDay : ℤ)
    (yd : ℕ → ℚ) (sd : ℕ → ℤ) :
    MockDataGenerator.generate_historical_data isin 0 endDay yd sd = Except.ok [] :=
  rfl

/-- Claim C7 (amended): a negative `days` passed to `generate_historical_data`
is rejected synchronously with a `ValueError` (raised by the pandas date-range
construction), but a negative `count` passed to `generate_bonds` is NOT
rejected: the `range(count)` loop simply runs zero times and the call silently
returns the empty list. -/
theorem negative_inputs_behavior (count base_day : ℤ)
    (draws : ℕ → MockDataGenerator.BondDraw) (isin : String) (days endDay : ℤ)
    (yd : ℕ → ℚ) (sd : ℕ → ℤ) (hc : count < 0) (hd : days < 0) :
    MockDataGenerator.generate_bonds count base_day draws = [] ∧
    MockDataGenerator.generate_historical_data isin days endDay yd sd
      = Except.error ("ValueError: periods must be non-negative") := by
  constructor
  · unfold MockDataGenerator.generate_bonds
    rw [Int.toNat_of_nonpos (le_of_lt hc)]
    rfl
  · unfold MockDataGenerator.generate_historical_data MockDataGenerator.date_range
    rw [if_pos hd]

/-- Witness for C7 (amended): evaluated at `count = -5`, `days = -3`. -/
theorem negative_inputs_behavior_checked :
    ((-5 : ℤ) < 0 ∧ (-3 : ℤ) < 0) ∧
    (MockDataGenerator.generate_bonds (-5) 0 wdraws = [] ∧
      MockDataGenerator.generate_historical_data ("X") (-3) 0 (fun _ => 0) (fun _ => 0)
        = Except.error ("ValueError: periods must be non-negative")) :=
  ⟨⟨by norm_num, by norm_num⟩,
    negative_inputs_behavior (-5) 0 wdraws ("X") (-3) 0 (fun _ => 0) (fun _ => 0)
      (by norm_num) (by norm_num)⟩

/-- Counterexample for C7 as stated: `generate_bonds(-5)` silently returns the
empty list instead of being rejected with an input-validation error (the
function cannot signal an error at all: it totally returns a list). -/
theorem generate_bonds_negative_count_silent :
    MockDataGenerator.generate_bonds (-5) 0 durMinDraws = [] :=
  rfl

/-- Claim C4: for every currency and every valid per-tenor noise stream,
`generate_yield_curve` returns two parallel arrays of equal length 11, the
tenors are exactly the fixed ascending grid, and each yield equals the
corresponding base-table rate plus some perturbation in `[-1/10, 1/10]`,
rounded to 3 decimal places. -/
theorem generate_yield_curve_spec (currency : String) (noise : List ℚ)
    (hlen : noise.length = 11)
    (hn : ∀ x ∈ noise, -(1/10) ≤ x ∧ x ≤ 1/10) :
    (AnalyticsEngine.generate_yield_curve currency noise).yields.length
        = (AnalyticsEngine.generate_yield_curve currency noise).tenors.length ∧
    (AnalyticsEngine.generate_yield_curve currency noise).tenors.length = 11 ∧
    (AnalyticsEngine.generate_yield_curve currency noise).tenors
        = [1/4, 1/2, 1, 2, 3, 5, 7, 10, 15, 20, 30] ∧
    ∀ i, i < 11 →
      ∃ p : ℚ, -(1/10) ≤ p ∧ p ≤ 1/10 ∧
        (AnalyticsEngine.generate_yield_curve currency noise).yields.getD i 0
          = pyRound ((AnalyticsEngine.base_rates currency).getD i 0 + p) 3 := by
  have hb := base_rates_length currency
  refine ⟨?_, rfl, rfl, ?_⟩
  · show (List.zipWith _ (AnalyticsEngine.base_rates currency) noise).length = _
    rw [List.length_zipWith, hb, hlen]
    rfl
  · intro i hi
    have hib : i < (AnalyticsEngine.base_rates currency).length := by omega
    have hin : i < noise.length := by omega
    refine ⟨noise.getD i 0, (hn _ (getD_mem noise i hin)).1, (hn _ (getD_mem noise i hin)).2, ?_⟩
    exact getD_zipWith_pyRound (AnalyticsEngine.base_rates currency) noise i hib hin

/-- Witness for C4: evaluated at currency `"USD"` and a concrete noise list. -/
theorem generate_yield_curve_spec_checked :
    (noiseSample.length = 11 ∧ ∀ x ∈ noiseSample, -(1/10) ≤ x ∧ x ≤ 1/10) ∧
    ((AnalyticsEngine.generate_yield_curve ("USD") noiseSample).yields.length
        = (AnalyticsEngine.generate_yield_curve ("USD") noiseSample).tenors.length ∧
      (AnalyticsEngine.generate_yield_curve ("USD") noiseSample).tenors.length = 11 ∧
      (AnalyticsEngine.generate_yield_curve ("USD") noiseSample).tenors
        = [1/4, 1/2, 1, 2, 3, 5, 7, 10, 15, 20, 30] ∧
      ∀ i, i < 11 →
        ∃ p : ℚ, -(1/10) ≤ p ∧ p ≤ 1/10 ∧
          (AnalyticsEngine.generate_yield_curve ("USD") noiseSample).yields.getD i 0
            = pyRound ((AnalyticsEngine.base_rates ("USD")).getD i 0 + p) 3) :=
  ⟨⟨rfl, by norm_num [noiseSample]⟩,
    generate_yield_curve_spec ("USD") noiseSample rfl (by norm_num [noiseSample])⟩

/-- Claim C5: `generate_yield_curve` classifies its currency binarily and never
fails: the exact string `"USD"` selects the high-rate base table, every other
string selects the low-rate base table, and in both cases the call returns a
normal 11-point curve (the function is total). -/
theorem generate_yield_curve_binary_classification (currency : String) (noise : List ℚ) :
    (currency = "USD" →
      (AnalyticsEngine.generate_yield_curve currency noise).yields
        = List.zipWith (fun rate n => pyRound (rate + n) 3)
            ([7/2, 37/10, 39/10, 4, 41/10, 21/5, 43/10, 22/5, 9/2, 23/5, 47/10] : List ℚ)
            noise) ∧
    (currency ≠ "USD" →
      (AnalyticsEngine.generate_yield_curve currency noise).yields
        = List.zipWith (fun rate n => pyRound (rate + n) 3)
            ([5/2, 27/10, 29/10, 3, 31/10, 16/5, 33/10, 17/5, 7/2, 18/5, 37/10] : List ℚ)
            noise) ∧
    (noise.length = 11 →
      (AnalyticsEngine.generate_yield_curve currency noise).yields.length = 11) := by
  refine ⟨?_, ?_, ?_⟩
  · intro h
    unfold AnalyticsEngine.generate_yield_curve AnalyticsEngine.base_rates
    rw [if_pos h]
  · intro h
    unfold AnalyticsEngine.generate_yield_curve AnalyticsEngine.base_rates
    rw [if_neg h]
  · intro h
    show (List.zipWith _ (AnalyticsEngine.base_rates currency) noise).length = 11
    rw [List.length_zipWith, base_rates_length, h]
    omega

/-- Witness for C5: evaluated at the non-primary currency `"JPY"`. -/
theorem generate_yield_curve_binary_classification_checked :
    ("JPY" : String) ≠ "USD" ∧
    (AnalyticsEngine.generate_yield_curve ("JPY") noiseSample).yields
      = List.zipWith (fun rate n => pyRound (rate + n) 3)
          ([5/2, 27/10, 29/10, 3, 31/10, 16/5, 33/10, 17/5, 7/2, 18/5, 37/10] : List ℚ)
          noiseSample :=
  ⟨by simp,
    (generate_yield_curve_binary_classification ("JPY") noiseSample).2.1 (by simp)⟩

/-- Claim C8: for every bond, holding period and price-return draw
`u ∈ [-2, 2]`, `calculate_total_return` returns
`round₂((coupon/100 * holdingDays/365 + r) * 100)` for some `r ∈ [-1/50, 1/50]`
(namely `r = u / 100`). -/
theorem calculate_total_return_spec (bond : Bond) (holding_period_days : ℤ) (u : ℚ)
    (h1 : -2 ≤ u) (h2 : u ≤ 2) :
    ∃ r : ℚ, -(1/50) ≤ r ∧ r ≤ 1/50 ∧
      AnalyticsEngine.calculate_total_return bond holding_period_days u
        = pyRound ((bond.coupon / 100 * ((holding_period_days : ℤ) / 365 : ℚ) + r) * 100) 2 :=
  ⟨u / 100, by linarith, by linarith, rfl⟩

/-- Witness for C8: evaluated at a concrete bond, a 30-day holding period and
the draw `u = 1`. -/
theorem calculate_total_return_spec_checked :
    ((-2 : ℚ) ≤ 1 ∧ (1 : ℚ) ≤ 2) ∧
    (∃ r : ℚ, -(1/50) ≤ r ∧ r ≤ 1/50 ∧
      AnalyticsEngine.calculate_total_return sampleBond 30 1
        = pyRound ((sampleBond.coupon / 100 * (((30 : ℤ) : ℚ) / 365) + r) * 100) 2) :=
  ⟨⟨by norm_num, by norm_num⟩,
    calculate_total_return_spec sampleBond 30 1 (by norm_num) (by norm_num)⟩

/-- Claim C10: `calculate_total_return` reads only the `coupon` field of its
bond argument: two bonds agreeing on `coupon` yield the same result under the
same random draw, whatever their other fields. -/
theorem calculate_total_return_coupon_only (b1 b2 : Bond) (holding_period_days : ℤ)
    (u : ℚ) (h : b1.coupon = b2.coupon) :
    AnalyticsEngine.calculate_total_return b1 holding_period_days u
      = AnalyticsEngine.calculate_total_return b2 holding_period_days u := by
  unfold AnalyticsEngine.calculate_total_return
  rw [h]

/-- Witness for C10: two bonds differing in every field except `coupon`. -/
theorem calculate_total_return_coupon_only_checked :
    (sampleBond.coupon = sampleBond2.coupon ∧ sampleBond.rating ≠ sampleBond2.rating) ∧
    AnalyticsEngine.calculate_total_return sampleBond 30 (1/2)
      = AnalyticsEngine.calculate_total_return sampleBond2 30 (1/2) :=
  ⟨⟨rfl, by simp [sampleBond, sampleBond2]⟩,
    calculate_total_return_coupon_only sampleBond sampleBond2 30 (1/2) rfl⟩
